import Mathlib

/-!
Shallow embedding of the RAG-Forge transcript services.

Two source files are modelled:
* `src/transcript-service/main.py` — the HTTP-mode service (FastAPI):
  `_format_fetched_transcript`, `fetch_transcript_sync`, the
  `POST /get_transcript` handler and the `GET /health` handler.
* `src/internal/extractor/youtube_helper.py` — the pipe-mode service:
  the stdin/stdout loop of `main`, its per-line handling and its
  transcript flattening.

The external collaborator (the `youtube_transcript_api` library) is an
oracle: a `Collab` record gives, for the one video id of a request, the
outcome of each collaborator call the code can make (`fetch`/
`get_transcript`, `list`/`list_transcripts`, `find_transcript`, and per
transcript track `fetch` and `translate(..).fetch`).  Python exceptions
are explicit `PyErr` values; Python strings use `String`, with Python
`str.strip` modelled by `pyStrip` and `" ".join` by `pyJoin`.
-/

/-- A Python value that can occupy a segment text field (or a request
`video_id` field): absent/None, a string, or a representative non-string
(an integer; its Python truthiness is `n ≠ 0`). -/
inductive PyVal where
  | none
  | str (s : String)
  | int (n : Int)
deriving DecidableEq

/-- Python truthiness of a `PyVal` (`if text:` / `if not video_id:`). -/
def pyTruthy : PyVal → Bool
  | .none => false
  | .str s => s ≠ ""
  | .int n => n ≠ 0

/-- The Python exceptions the two services distinguish.  Each carries its
`str(e)` message. -/
inductive PyErr where
  | noTranscriptFound (m : String)
  | transcriptsDisabled (m : String)
  | videoUnavailable (m : String)
  | attributeError (m : String)
  | keyError (m : String)
  | typeError (m : String)
  | other (m : String)
deriving DecidableEq

/-- `str(e)` of an exception. -/
def PyErr.msg : PyErr → String
  | .noTranscriptFound m => m
  | .transcriptsDisabled m => m
  | .videoUnavailable m => m
  | .attributeError m => m
  | .keyError m => m
  | .typeError m => m
  | .other m => m

/-- Result of a Python expression: a value, or a raised exception. -/
inductive Res (α : Type) where
  | ok (a : α)
  | err (e : PyErr)
deriving DecidableEq

/-- Characters stripped by Python `str.strip()` (ASCII whitespace). -/
def isPySpace (c : Char) : Bool :=
  c = ' ' || c = '\t' || c = '\n' || c = '\r' || c = '\x0b' || c = '\x0c'

/-- Strip leading and trailing whitespace from a character list. -/
def stripChars (l : List Char) : List Char :=
  ((l.dropWhile isPySpace).reverse.dropWhile isPySpace).reverse

/-- Python `s.strip()`. -/
def pyStrip (s : String) : String := ⟨stripChars s.data⟩

/-- Python `" ".join(parts)`. -/
def pyJoin : List String → String
  | [] => ""
  | [s] => s
  | s :: t :: rest => s ++ " " ++ pyJoin (t :: rest)

/-- Message of the `AttributeError` raised by `text.strip()` on a truthy
non-string text field. -/
def attrStripMsg : String := "int object has no attribute strip"

/-- Message of the `AttributeError` raised by `request.get` when a pipe-mode
line parses to a non-dict JSON value. -/
def attrGetMsg : String := "int object has no attribute get"

/-- Message of the `TypeError` raised by `" ".join` on a non-string item. -/
def typeJoinMsg : String := "sequence item: expected str instance"

/-- The `parts` accumulation loop of `_format_fetched_transcript`
(`src/transcript-service/main.py`): for each snippet,
`text = getattr(snippet, "text", None)`; if `text` is truthy, append
`text.strip()` — which raises `AttributeError` when `text` is a truthy
non-string. -/
def collectParts : List PyVal → Res (List String)
  | [] => .ok []
  | .none :: rest => collectParts rest
  | .str s :: rest =>
    if s = "" then collectParts rest
    else
      match collectParts rest with
      | .ok ps => .ok (pyStrip s :: ps)
      | .err e => .err e
  | .int n :: rest =>
    if n = 0 then collectParts rest
    else .err (.attributeError attrStripMsg)

/-- `_format_fetched_transcript` (`src/transcript-service/main.py`):
collect the truthy texts stripped, then
`" ".join(filter(None, parts)).strip()`. -/
def formatFetched (snippets : List PyVal) : Res String :=
  match collectParts snippets with
  | .ok parts => .ok (pyStrip (pyJoin (parts.filter (fun p => p ≠ ""))))
  | .err e => .err e

/-- One transcript track as seen through the collaborator: its
`is_translatable` flag, the outcome of `fetch()` on it, and the outcome of
`translate("en").fetch()` on it. -/
structure TranscriptTrack where
  is_translatable : Bool
  fetchResult : Res (List PyVal)
  translateFetchResult : Res (List PyVal)
deriving DecidableEq

/-- Collaborator oracle for one video id: the outcome of the prioritized
fetch (`ytt_api.fetch` / `api.get_transcript` with languages en, en-US,
en-GB), of listing transcripts, and of `find_transcript` on the same
priority list. -/
structure Collab where
  fetchResult : Res (List PyVal)
  listResult : Res (List TranscriptTrack)
  findResult : Res TranscriptTrack
deriving DecidableEq

/-- Prefix wrapping of unexpected errors in `fetch_transcript_sync`. -/
def unexpectedWrap (m : String) : String :=
  "An unexpected error occurred in transcript fetching: " ++ m

/-- The body of the outer `try` of `fetch_transcript_sync`: the prioritized
fetch followed by `_format_fetched_transcript`. -/
def primaryAttempt (c : Collab) : Res String :=
  match c.fetchResult with
  | .ok segs => formatFetched segs
  | .err e => .err e

/-- The body of the inner `try` of `fetch_transcript_sync`:
`transcript_list.find_transcript(LANGUAGE_PRIORITY)` then `.fetch()` then
`_format_fetched_transcript`. -/
def innerTry (c : Collab) : Res String :=
  match c.findResult with
  | .ok t =>
    match t.fetchResult with
    | .ok segs => formatFetched segs
    | .err e => .err e
  | .err e => .err e

/-- The translation fallback loop of `fetch_transcript_sync`: skip
non-translatable tracks; `translate("en").fetch()` failures of any kind are
swallowed by `except Exception: continue`; a successful fetch is formatted
(outside that `try`, so a formatting exception escapes the loop raw) and
returned when non-empty; an exhausted loop re-raises the original
`NoTranscriptFound`. -/
def translationLoop (base : PyErr) : List TranscriptTrack → Res String
  | [] => .err base
  | t :: rest =>
    if t.is_translatable then
      match t.translateFetchResult with
      | .err _ => translationLoop base rest
      | .ok segs =>
        match formatFetched segs with
        | .err e => .err e
        | .ok s => if s ≠ "" then .ok s else translationLoop base rest
    else translationLoop base rest

/-- The body of the `except NoTranscriptFound` handler of
`fetch_transcript_sync`: `ytt_api.list(video_id)`, then the inner `try`;
only a `NoTranscriptFound` from the inner `try` enters the translation
loop, every other exception raised inside this handler escapes raw (later
`except` clauses of the same `try` do not apply to a handler body). -/
def fallbackChain (c : Collab) (base : PyErr) : Res String :=
  match c.listResult with
  | .err e => .err e
  | .ok tracks =>
    match innerTry c with
    | .ok s => .ok s
    | .err (.noTranscriptFound _) => translationLoop base tracks
    | .err e => .err e

/-- The body of `fetch_transcript_sync` (`src/transcript-service/main.py`):
outer `try` dispatch — `NoTranscriptFound` runs the fallback chain,
`TranscriptsDisabled`/`VideoUnavailable` are re-raised as-is, anything else
is wrapped as a generic unexpected error.  (The source declares this
function `async def` despite its name and docstring, so the HTTP endpoint,
which hands it to `run_in_threadpool` without awaiting the resulting
coroutine, never actually executes this body; the definition embeds the
Transcript Resolver logic the function contains.) -/
def fetch_transcript_sync (c : Collab) : Res String :=
  match primaryAttempt c with
  | .ok s => .ok s
  | .err e =>
    match e with
    | .noTranscriptFound m => fallbackChain c (.noTranscriptFound m)
    | .transcriptsDisabled m => .err (.transcriptsDisabled m)
    | .videoUnavailable m => .err (.videoUnavailable m)
    | e2 => .err (.other (unexpectedWrap (PyErr.msg e2)))

/-- An HTTP response: status code and a flat JSON object body. -/
structure HttpResp where
  status : Nat
  body : List (String × String)
deriving DecidableEq

/-- The JSON body of `POST /get_transcript`: the `video_id` field is either
absent or a string value.  (Declared shape: `class VideoRequest(BaseModel):
video_id: str`.) -/
inductive ReqBody where
  | missing
  | strVal (s : String)
deriving DecidableEq

/-- The framework-side rejection of a body that fails the `VideoRequest`
model: FastAPI/pydantic reject a missing required `video_id: str` field
with a 422 validation response before the handler runs; any string value,
the empty string included, passes validation. -/
def validationResp : HttpResp := ⟨422, [("detail", "field required")]⟩

/-- The framework's generic answer when serializing the handler's return
value fails: a plain 500 Internal Server Error page (its non-JSON body is
modelled as a single field). -/
def serializationFailureResp : HttpResp :=
  ⟨500, [("error", "Internal Server Error")]⟩

/-- `POST /get_transcript` (`src/transcript-service/main.py`): the body is
validated against `VideoRequest`, then the handler evaluates
`await run_in_threadpool(fetch_transcript_sync, request.video_id)`.
Because `fetch_transcript_sync` is declared `async def`, calling it inside
the worker thread only creates a coroutine object without executing its
body: no collaborator call happens, no resolver exception can reach the
handler's `except` clauses (they are dead code), and the handler returns
`{"transcript": <coroutine>}`, whose serialization fails outside the
handler — so every validated request gets the framework's generic 500. -/
def get_transcript (body : ReqBody) (_c : Collab) : HttpResp :=
  match body with
  | .missing => validationResp
  | .strVal _ => serializationFailureResp

/-- `GET /health` (`src/transcript-service/main.py`): the handler body is
`return {"status": "ok"}`; the `Collab` parameter stands for the ambient
collaborator state, which the handler never consults. -/
def health_check (_c : Collab) : HttpResp := ⟨200, [("status", "ok")]⟩

/-- True on the segments whose text key is absent (pipe mode:
`seg["text"]` raises `KeyError`). -/
def hasNoneText (snips : List PyVal) : Bool :=
  snips.any (fun v => match v with | .none => true | _ => false)

/-- True on the segments whose text value is a non-string (pipe mode:
`" ".join` raises `TypeError`). -/
def hasNonStrText (snips : List PyVal) : Bool :=
  snips.any (fun v => match v with | .int _ => true | _ => false)

/-- The string stored in a segment text field (only consulted when the
field is a string). -/
def rawText : PyVal → String
  | .str s => s
  | _ => ""

/-- Pipe-mode flattening
(`" ".join([seg["text"] for seg in transcript_list])` in
`src/internal/extractor/youtube_helper.py`): the comprehension raises
`KeyError` on a missing text key, then the join raises `TypeError` on a
non-string item; otherwise the raw, untrimmed texts are joined with single
spaces. -/
def pipeFlatten (snips : List PyVal) : Res String :=
  if hasNoneText snips then .err (.keyError "text")
  else if hasNonStrText snips then .err (.typeError typeJoinMsg)
  else .ok (pyJoin (snips.map rawText))

/-- Prefix wrapping of unexpected errors in pipe mode. -/
def pipeWrap (m : String) : String :=
  "An unexpected error occurred: " ++ m

/-- One pipe-mode response line: a transcript object or an error object. -/
inductive PipeResp where
  | transcript (s : String)
  | error (s : String)
deriving DecidableEq

/-- Pipe-mode primary attempt: `api.get_transcript(video_id, languages)`
then the raw join. -/
def pipePrimary (c : Collab) : Res String :=
  match c.fetchResult with
  | .ok segs => pipeFlatten segs
  | .err e => .err e

/-- The body of the pipe-mode `except NoTranscriptFound` handler:
`api.list_transcripts(video_id)`, `find_transcript([...]).fetch()`, raw
join.  Any exception raised here escapes this handler (the sibling
`except (TranscriptsDisabled, VideoUnavailable, NoTranscriptFound)` clause
does not apply to a handler body). -/
def pipeFallback (c : Collab) : Res String :=
  match c.listResult with
  | .err e => .err e
  | .ok _ =>
    match c.findResult with
    | .err e => .err e
    | .ok t =>
      match t.fetchResult with
      | .err e => .err e
      | .ok segs => pipeFlatten segs

/-- Pipe-mode resolution of one truthy video id
(`src/internal/extractor/youtube_helper.py`, the inner `try` of the loop):
primary attempt; on `NoTranscriptFound` the fallback, whose own failures
reach the outer generic handler and are wrapped; on
`TranscriptsDisabled`/`VideoUnavailable` the classified message; any other
failure is wrapped by the outer generic handler. -/
def pipeHandle (c : Collab) : PipeResp :=
  match pipePrimary c with
  | .ok s => .transcript s
  | .err (.noTranscriptFound _) =>
    match pipeFallback c with
    | .ok s => .transcript s
    | .err e => .error (pipeWrap (PyErr.msg e))
  | .err (.transcriptsDisabled m) => .error m
  | .err (.videoUnavailable m) => .error m
  | .err e => .error (pipeWrap (PyErr.msg e))

/-- One line of pipe-mode input, as `json.loads` sees it: invalid JSON, a
valid non-dict JSON value (on which `request.get` raises
`AttributeError`), or a dict whose `video_id` field is the given `PyVal`
(`.none` when absent, since `dict.get` returns `None`). -/
inductive PipeLine where
  | badJson
  | nonDictJson
  | dict (vid : PyVal)
deriving DecidableEq

/-- Processing of one pipe-mode input line (`main` in
`src/internal/extractor/youtube_helper.py`): invalid JSON and non-dict
JSON are reported and the loop continues; a falsy `video_id` yields the
local validation error without any collaborator call; a truthy one runs
the resolver. -/
def processLine (line : PipeLine) (c : Collab) : PipeResp :=
  match line with
  | .badJson => .error "Invalid JSON input"
  | .nonDictJson => .error (pipeWrap attrGetMsg)
  | .dict vid => if pyTruthy vid then pipeHandle c else .error "No video_id provided"

/-- The pipe-mode main loop over a finite input stream: one response per
line, in order, the collaborator oracle given per line. -/
def pipeMain : List (PipeLine × Collab) → List PipeResp
  | [] => []
  | (l, c) :: rest => processLine l c :: pipeMain rest

/-- True when a result is a value rather than a raised exception. -/
def isOkRes {α : Type} : Res α → Bool
  | .ok _ => true
  | .err _ => false

/-- A text field on which `_format_fetched_transcript` cannot raise: a
string, an absent field, or a falsy non-string. -/
def textOk : PyVal → Bool
  | .int n => n = 0
  | _ => true

/-- Collaborator state whose prioritized fetch succeeds with the spec's
example segments. -/
def cHello : Collab :=
  ⟨.ok [.str "Hello", .str " world"], .err (.other "unused"), .err (.other "unused")⟩

/-- Collaborator state whose prioritized fetch succeeds with two
strip-stable segments. -/
def cHi : Collab :=
  ⟨.ok [.str "Hi", .str "there"], .err (.other "unused"), .err (.other "unused")⟩

/-- Collaborator state whose prioritized fetch succeeds with only blank
segments. -/
def cBlank : Collab :=
  ⟨.ok [.str "", .str "  "], .err (.other "unused"), .err (.other "unused")⟩

/-- Collaborator state for a video with transcripts disabled. -/
def cDisabled : Collab :=
  ⟨.err (.transcriptsDisabled "disabled"), .err (.other "unused"), .err (.other "unused")⟩

/-- A non-translatable track. -/
def tSkip : TranscriptTrack := ⟨false, .err (.other "unused"), .err (.other "unused")⟩

/-- A translatable track whose translation fetch raises a classified
error. -/
def tErr : TranscriptTrack := ⟨true, .err (.other "unused"), .err (.videoUnavailable "vu")⟩

/-- A translatable track whose translation fetch succeeds. -/
def tGood : TranscriptTrack := ⟨true, .err (.other "unused"), .ok [.str "Hi"]⟩

/-- A translatable track whose translated fetch holds a truthy non-string
text field. -/
def tBad : TranscriptTrack := ⟨true, .err (.other "unused"), .ok [.int 1]⟩

/-- Collaborator state exercising the whole fallback chain: prioritized
fetch and `find_transcript` both fail with `NoTranscriptFound`; the list
holds a non-translatable track, a track whose translation raises, and a
track whose translation succeeds. -/
def cChain : Collab :=
  ⟨.err (.noTranscriptFound "nf"), .ok [tSkip, tErr, tGood], .err (.noTranscriptFound "nf2")⟩

/-- Collaborator state whose only translatable track yields a segment with
a truthy non-string text field. -/
def cAttr : Collab :=
  ⟨.err (.noTranscriptFound "nf"), .ok [tBad], .err (.noTranscriptFound "nf2")⟩

/-! ### Helper lemmas about `pyStrip` and `pyJoin` -/

theorem length_dropWhile_le (p : Char → Bool) (l : List Char) :
    (l.dropWhile p).length ≤ l.length := by
  induction l with
  | nil => simp [List.dropWhile]
  | cons a l ih =>
    by_cases h : p a = true
    · rw [List.dropWhile_cons_of_pos h]
      exact Nat.le_trans ih (Nat.le_succ _)
    · rw [List.dropWhile_cons_of_neg h]

theorem dropWhile_eq_self_of_length (p : Char → Bool) (l : List Char)
    (h : (l.dropWhile p).length = l.length) : l.dropWhile p = l := by
  induction l with
  | nil => simp
  | cons a l ih =>
    by_cases hp : p a = true
    · exfalso
      rw [List.dropWhile_cons_of_pos hp] at h
      have hle := length_dropWhile_le p l
      rw [h] at hle
      simp [List.length_cons] at hle
    · rw [List.dropWhile_cons_of_neg hp]

theorem stripChars_stable_left {l : List Char} (h : stripChars l = l) :
    l.dropWhile isPySpace = l := by
  apply dropWhile_eq_self_of_length
  have h1 : (stripChars l).length = l.length := by rw [h]
  unfold stripChars at h1
  rw [List.length_reverse] at h1
  have h2 := length_dropWhile_le isPySpace ((l.dropWhile isPySpace).reverse)
  rw [List.length_reverse] at h2
  have h3 := length_dropWhile_le isPySpace l
  omega

theorem stripChars_stable_right {l : List Char} (h : stripChars l = l) :
    l.reverse.dropWhile isPySpace = l.reverse := by
  have hl := stripChars_stable_left h
  unfold stripChars at h
  rw [hl] at h
  have h2 := congrArg List.reverse h
  rwa [List.reverse_reverse] at h2

theorem dropWhile_eq_self_of_head {p : Char → Bool} {l : List Char} {c : Char}
    (h : l.head? = some c) (hc : p c = false) : l.dropWhile p = l := by
  cases l with
  | nil => simp at h
  | cons a t =>
    simp [List.head?] at h
    subst h
    exact List.dropWhile_cons_of_neg (by simp [hc])

theorem head_not_space_of_stable {l : List Char} (hne : l ≠ [])
    (h : l.dropWhile isPySpace = l) :
    ∃ c, l.head? = some c ∧ isPySpace c = false := by
  cases l with
  | nil => exact absurd rfl hne
  | cons a t =>
    refine ⟨a, rfl, ?_⟩
    by_contra hc
    have ha : isPySpace a = true := by
      cases hval : isPySpace a
      · exact absurd hval hc
      · rfl
    rw [List.dropWhile_cons_of_pos ha] at h
    have hle := length_dropWhile_le isPySpace t
    have h2 := congrArg List.length h
    simp [List.length_cons] at h2
    omega

theorem str_data_ne_nil {s : String} (h : s ≠ "") : s.data ≠ [] := by
  intro hd
  apply h
  apply String.ext
  rw [hd]

theorem pyStrip_data (s : String) : (pyStrip s).data = stripChars s.data := rfl

theorem stable_of_pyStrip {s : String} (h : pyStrip s = s) :
    stripChars s.data = s.data :=
  congrArg String.data h

theorem pyJoin_cons (s t : String) (rest : List String) :
    pyJoin (s :: t :: rest) = s ++ " " ++ pyJoin (t :: rest) := rfl

theorem pyJoin_head? (t : String) (rest : List String) (ht : t.data ≠ []) :
    (pyJoin (t :: rest)).data.head? = t.data.head? := by
  cases rest with
  | nil => rfl
  | cons u r =>
    rw [pyJoin_cons, String.data_append, String.data_append, List.append_assoc]
    exact List.head?_append_of_ne_nil _ ht

theorem pyJoin_data_ne_nil (t : String) (rest : List String) (ht : t.data ≠ []) :
    (pyJoin (t :: rest)).data ≠ [] := by
  intro h
  have h1 := pyJoin_head? t rest ht
  rw [h] at h1
  cases hd : t.data with
  | nil => exact ht hd
  | cons a l =>
    rw [hd] at h1
    simp at h1

theorem pyJoin_getLast? (rest : List String) : ∀ t : String,
    (∀ x ∈ t :: rest, x.data ≠ []) →
    ∃ u, u ∈ t :: rest ∧ (pyJoin (t :: rest)).data.getLast? = u.data.getLast? := by
  induction rest with
  | nil =>
    intro t _
    exact ⟨t, by simp, rfl⟩
  | cons u r ih =>
    intro t h
    have hu : (pyJoin (u :: r)).data ≠ [] :=
      pyJoin_data_ne_nil u r (h u (by simp))
    obtain ⟨w, hw, he⟩ := ih u (fun x hx => h x (List.mem_cons_of_mem _ hx))
    refine ⟨w, List.mem_cons_of_mem _ hw, ?_⟩
    rw [pyJoin_cons, String.data_append]
    rw [List.getLast?_append_of_ne_nil _ hu]
    exact he

theorem pyStrip_pyJoin_stable (texts : List String)
    (h : ∀ x ∈ texts, x ≠ "" ∧ pyStrip x = x) :
    pyStrip (pyJoin texts) = pyJoin texts := by
  cases texts with
  | nil => rfl
  | cons t rest =>
    apply String.ext
    rw [pyStrip_data]
    have ht := h t (by simp)
    have htd : t.data ≠ [] := str_data_ne_nil ht.1
    obtain ⟨c, hc1, hc2⟩ :=
      head_not_space_of_stable htd (stripChars_stable_left (stable_of_pyStrip ht.2))
    have hJh : (pyJoin (t :: rest)).data.head? = some c := by
      rw [pyJoin_head? t rest htd]
      exact hc1
    have hLeft : (pyJoin (t :: rest)).data.dropWhile isPySpace = (pyJoin (t :: rest)).data :=
      dropWhile_eq_self_of_head hJh hc2
    obtain ⟨u, hu, hue⟩ := pyJoin_getLast? rest t (fun x hx => str_data_ne_nil (h x hx).1)
    have hud : u.data ≠ [] := str_data_ne_nil (h u hu).1
    obtain ⟨d, hd1, hd2⟩ : ∃ d, u.data.getLast? = some d ∧ isPySpace d = false := by
      have hrev := stripChars_stable_right (stable_of_pyStrip (h u hu).2)
      have hrne : u.data.reverse ≠ [] := by
        intro hx
        apply hud
        have hrr := congrArg List.reverse hx
        rwa [List.reverse_reverse] at hrr
      obtain ⟨d, hd1, hd2⟩ := head_not_space_of_stable hrne hrev
      rw [List.head?_reverse] at hd1
      exact ⟨d, hd1, hd2⟩
    have hJl : (pyJoin (t :: rest)).data.reverse.head? = some d := by
      rw [List.head?_reverse, hue]
      exact hd1
    have hRight : (pyJoin (t :: rest)).data.reverse.dropWhile isPySpace =
        (pyJoin (t :: rest)).data.reverse :=
      dropWhile_eq_self_of_head hJl hd2
    show stripChars (pyJoin (t :: rest)).data = (pyJoin (t :: rest)).data
    unfold stripChars
    rw [hLeft, hRight, List.reverse_reverse]

theorem pyStrip_empty : pyStrip "" = "" := rfl

theorem collectParts_str (texts : List String) :
    collectParts (texts.map PyVal.str) =
      .ok ((texts.filter (fun t => t ≠ "")).map pyStrip) := by
  induction texts with
  | nil => rfl
  | cons t r ih =>
    by_cases h : t = ""
    · subst h
      simp [collectParts, ih, List.filter_cons]
    · simp [collectParts, h, ih, List.filter_cons]

theorem filter_map_pyStrip (texts : List String) :
    ((texts.filter (fun t => t ≠ "")).map pyStrip).filter (fun p => p ≠ "") =
      (texts.map pyStrip).filter (fun p => p ≠ "") := by
  induction texts with
  | nil => rfl
  | cons t r ih =>
    by_cases h : t = ""
    · subst h
      simpa [List.filter_cons, pyStrip_empty] using ih
    · by_cases h2 : pyStrip t = ""
      · simpa [List.filter_cons, h, h2] using ih
      · simpa [List.filter_cons, h, h2] using ih

theorem formatFetched_str (texts : List String) :
    formatFetched (texts.map PyVal.str) =
      .ok (pyStrip (pyJoin ((texts.map pyStrip).filter (fun p => p ≠ "")))) := by
  unfold formatFetched
  rw [collectParts_str]
  simp only [filter_map_pyStrip]

theorem hasNoneText_str (texts : List String) :
    hasNoneText (texts.map PyVal.str) = false := by
  simp [hasNoneText]

theorem hasNonStrText_str (texts : List String) :
    hasNonStrText (texts.map PyVal.str) = false := by
  simp [hasNonStrText]

theorem map_rawText_str (texts : List String) :
    (texts.map PyVal.str).map rawText = texts := by
  rw [List.map_map]
  have hcomp : rawText ∘ PyVal.str = id := by
    funext s
    rfl
  rw [hcomp, List.map_id]

theorem pipeFlatten_str (texts : List String) :
    pipeFlatten (texts.map PyVal.str) = .ok (pyJoin texts) := by
  unfold pipeFlatten
  rw [hasNoneText_str, hasNonStrText_str, map_rawText_str]
  simp

theorem collectParts_ok (segs : List PyVal) (h : ∀ v ∈ segs, textOk v = true) :
    ∃ ps, collectParts segs = .ok ps := by
  induction segs with
  | nil => exact ⟨[], rfl⟩
  | cons v rest ih =>
    obtain ⟨ps, hps⟩ := ih (fun x hx => h x (List.mem_cons_of_mem _ hx))
    cases v with
    | none => exact ⟨ps, by simpa [collectParts] using hps⟩
    | str s =>
      by_cases hs : s = ""
      · exact ⟨ps, by simp [collectParts, hs, hps]⟩
      · exact ⟨pyStrip s :: ps, by simp [collectParts, hs, hps]⟩
    | int n =>
      have hn : n = 0 := by
        have hv := h (.int n) (by simp)
        simpa [textOk] using hv
      exact ⟨ps, by simp [collectParts, hn, hps]⟩

/-! ### Further shared helper lemmas -/

theorem map_pyStrip_stable (texts : List String)
    (h : ∀ t ∈ texts, pyStrip t = t) : texts.map pyStrip = texts := by
  induction texts with
  | nil => rfl
  | cons t r ih =>
    rw [List.map_cons, h t (by simp), ih (fun x hx => h x (List.mem_cons_of_mem _ hx))]

theorem filter_ne_empty_stable (texts : List String)
    (h : ∀ t ∈ texts, t ≠ "") : texts.filter (fun p => p ≠ "") = texts := by
  rw [List.filter_eq_self]
  intro a ha
  simpa using h a ha

/-! ### Claims -/

/-- C1 counterexample: on the spec example segments
`[{text:"Hello"}, {text:" world"}]` the pipe-mode resolver emits
`"Hello  world"` (two spaces: the raw texts are joined untrimmed), not the
claimed `"Hello world"`. -/
theorem c1_counterexample :
    pipeHandle cHello = .transcript "Hello  world" ∧
    ("Hello  world" : String) ≠ "Hello world" := by
  decide

/-- C1 (amended): the HTTP-mode resolver flattens a fetched transcript to
the individually-trimmed segment texts with blank results dropped, joined
by single spaces and trimmed, so on the example segments it yields
`"Hello world"`; the pipe-mode resolver joins the raw untrimmed texts with
single spaces, yielding `"Hello  world"` on the same segments. -/
theorem c1_flatten_amended :
    (∀ texts : List String,
        formatFetched (texts.map PyVal.str) =
          .ok (pyStrip (pyJoin ((texts.map pyStrip).filter (fun p => p ≠ ""))))) ∧
    fetch_transcript_sync cHello = .ok "Hello world" ∧
    (∀ texts : List String, pipeFlatten (texts.map PyVal.str) = .ok (pyJoin texts)) ∧
    pipeHandle cHello = .transcript "Hello  world" :=
  ⟨formatFetched_str, by decide, pipeFlatten_str, by decide⟩

/-- C2 counterexample: on a collaborator where the primary fetch and
`find_transcript` both fail with no-transcript-found and a translatable
track would succeed, the pipe-mode variant emits a wrapped unexpected
error — it has no translation fallback — while the HTTP resolver logic
returns the translated text; and on `cAttr` the HTTP resolver's loop ends
with a raw `AttributeError`, not the original no-transcript-found error,
refuting clause (3) even for the HTTP variant. -/
theorem c2_counterexample :
    pipeHandle cChain = .error "An unexpected error occurred: nf2" ∧
    fetch_transcript_sync cChain = .ok "Hi" ∧
    fetch_transcript_sync cAttr = .err (.attributeError attrStripMsg) := by
  decide

/-- C2 (amended): only the HTTP-mode resolver implements the fallback
chain — when the primary prioritized fetch fails with no-transcript-found
it runs the chain in order, stopping at first success: an `innerTry`
(find-and-fetch) success is returned; an `innerTry` no-transcript-found
failure enters the translation loop, which skips non-translatable tracks
and tracks whose translation raises, returns the first non-empty
flattened result, skips empty ones, and when exhausted fails with the
original no-transcript-found error.  The pipe-mode variant has no
translation fallback: a no-transcript-found from its `find_transcript`
step is reported as a wrapped unexpected error, whatever the track
list holds. -/
theorem c2_fallback_chain :
    (∀ (c : Collab) (m m2 : String) (tracks : List TranscriptTrack),
        c.fetchResult = .err (.noTranscriptFound m) →
        c.listResult = .ok tracks →
        innerTry c = .err (.noTranscriptFound m2) →
        fetch_transcript_sync c = translationLoop (.noTranscriptFound m) tracks) ∧
    (∀ (c : Collab) (m s : String) (tracks : List TranscriptTrack),
        c.fetchResult = .err (.noTranscriptFound m) →
        c.listResult = .ok tracks →
        innerTry c = .ok s →
        fetch_transcript_sync c = .ok s) ∧
    (∀ (base : PyErr) (t : TranscriptTrack) (rest : List TranscriptTrack),
        t.is_translatable = false →
        translationLoop base (t :: rest) = translationLoop base rest) ∧
    (∀ (base : PyErr) (t : TranscriptTrack) (rest : List TranscriptTrack) (e : PyErr),
        t.is_translatable = true →
        t.translateFetchResult = .err e →
        translationLoop base (t :: rest) = translationLoop base rest) ∧
    (∀ (base : PyErr) (t : TranscriptTrack) (rest : List TranscriptTrack)
        (segs : List PyVal) (s : String),
        t.is_translatable = true →
        t.translateFetchResult = .ok segs →
        formatFetched segs = .ok s → s ≠ "" →
        translationLoop base (t :: rest) = .ok s) ∧
    (∀ (base : PyErr) (t : TranscriptTrack) (rest : List TranscriptTrack)
        (segs : List PyVal),
        t.is_translatable = true →
        t.translateFetchResult = .ok segs →
        formatFetched segs = .ok "" →
        translationLoop base (t :: rest) = translationLoop base rest) ∧
    (∀ base : PyErr, translationLoop base [] = .err base) ∧
    (∀ (c : Collab) (m m2 : String) (tracks : List TranscriptTrack),
        c.fetchResult = .err (.noTranscriptFound m) →
        c.listResult = .ok tracks →
        c.findResult = .err (.noTranscriptFound m2) →
        pipeHandle c = .error (pipeWrap m2)) := by
  refine ⟨?_, ?_, ?_, ?_, ?_, ?_, ?_, ?_⟩
  · intro c m m2 tracks h1 h2 h3
    simp [fetch_transcript_sync, primaryAttempt, h1, fallbackChain, h2, h3]
  · intro c m s tracks h1 h2 h3
    simp [fetch_transcript_sync, primaryAttempt, h1, fallbackChain, h2, h3]
  · intro base t rest h
    simp [translationLoop, h]
  · intro base t rest e h1 h2
    simp [translationLoop, h1, h2]
  · intro base t rest segs s h1 h2 h3 h4
    simp [translationLoop, h1, h2, h3, h4]
  · intro base t rest segs h1 h2 h3
    simp [translationLoop, h1, h2, h3]
  · intro base
    simp [translationLoop]
  · intro c m m2 tracks h1 h2 h3
    simp [pipeHandle, pipePrimary, h1, pipeFallback, h2, h3, PyErr.msg]

/-- C2 witness: a collaborator whose primary fetch and find both fail with
no-transcript-found, and whose track list holds a non-translatable track,
a track whose translation raises, and a good one, resolves to the good
track's text. -/
theorem c2_fallback_chain_witness : fetch_transcript_sync cChain = .ok "Hi" := by
  have h := c2_fallback_chain.1 cChain "nf" "nf2" [tSkip, tErr, tGood] rfl rfl rfl
  exact h.trans (by decide)

/-- C3 counterexample: an HTTP request with an empty-string `video_id`
passes validation and reaches the handler, whose response is the
framework's serialization 500 — not the invalid-request (local
validation) error. -/
theorem c3_counterexample :
    get_transcript (.strVal "") cHello = serializationFailureResp ∧
    serializationFailureResp ≠ validationResp := by
  decide

/-- C3 (amended): in pipe mode a missing or empty `video_id` yields the
local invalid-request error independently of collaborator state; in HTTP
mode a missing `video_id` field yields the framework validation response,
but an empty-string `video_id` is not rejected locally — it reaches the
handler, which (the resolver being an un-awaited `async def`) makes no
collaborator call and answers with the framework's generic serialization
500; every HTTP response is independent of collaborator state. -/
theorem c3_validation_amended :
    (∀ c : Collab, processLine (.dict .none) c = .error "No video_id provided") ∧
    (∀ c : Collab, processLine (.dict (.str "")) c = .error "No video_id provided") ∧
    (∀ c1 c2 : Collab, processLine (.dict .none) c1 = processLine (.dict .none) c2) ∧
    (∀ c1 c2 : Collab,
        processLine (.dict (.str "")) c1 = processLine (.dict (.str "")) c2) ∧
    (∀ c : Collab, get_transcript .missing c = validationResp) ∧
    (∀ c : Collab, get_transcript (.strVal "") c = serializationFailureResp) ∧
    (∀ (b : ReqBody) (c1 c2 : Collab), get_transcript b c1 = get_transcript b c2) ∧
    serializationFailureResp ≠ validationResp :=
  ⟨fun _ => rfl, fun _ => rfl, fun _ _ => rfl, fun _ _ => rfl, fun _ => rfl,
    fun _ => rfl, fun b _ _ => by cases b <;> rfl, by decide⟩

/-- C4: the claimed 404-with-detail / 500-with-detail / 200-transcript
mapping is what the handler's `except` clauses implement, but the code
never exercises it — the resolver is an `async def` handed to
`run_in_threadpool` without its coroutine ever being awaited, so every
validated `POST /get_transcript` request ends in the framework's generic
serialization 500, regardless of collaborator state: a
transcripts-disabled video does not get its 404, and a successful
transcript does not get its 200. -/
theorem c4_http_mapping_dead :
    (∀ (vid : String) (c : Collab),
        get_transcript (.strVal vid) c = serializationFailureResp) ∧
    get_transcript (.strVal "abc") cDisabled ≠ ⟨404, [("detail", "disabled")]⟩ ∧
    get_transcript (.strVal "abc") cHello ≠ ⟨200, [("transcript", "Hello world")]⟩ :=
  ⟨fun _ _ => rfl, by decide, by decide⟩

/-- C5: the pipe loop emits exactly one response per input line, in order;
an invalid-JSON line yields the invalid-JSON error, a line missing
`video_id` yields the no-video-id error, and every line's response is
either a transcript object or an error object — no input ends the loop. -/
theorem c5_pipe_loop :
    (∀ inputs : List (PipeLine × Collab),
        pipeMain inputs = inputs.map (fun p => processLine p.1 p.2)) ∧
    (∀ inputs : List (PipeLine × Collab), (pipeMain inputs).length = inputs.length) ∧
    (∀ c : Collab, processLine .badJson c = .error "Invalid JSON input") ∧
    (∀ c : Collab, processLine (.dict .none) c = .error "No video_id provided") ∧
    (∀ (l : PipeLine) (c : Collab),
        (∃ s, processLine l c = .transcript s) ∨ (∃ s, processLine l c = .error s)) := by
  have hmap : ∀ inputs : List (PipeLine × Collab),
      pipeMain inputs = inputs.map (fun p => processLine p.1 p.2) := by
    intro inputs
    induction inputs with
    | nil => rfl
    | cons p rest ih =>
      cases p with
      | mk l c => simp [pipeMain, ih]
  refine ⟨hmap, ?_, fun _ => rfl, fun _ => rfl, ?_⟩
  · intro inputs
    rw [hmap inputs, List.length_map]
  · intro l c
    cases h : processLine l c with
    | transcript s => exact Or.inl ⟨s, rfl⟩
    | error s => exact Or.inr ⟨s, rfl⟩

/-- C6 counterexample: on the same collaborator state the two variants
disagree — the HTTP resolver returns `"Hello world"` where the pipe
resolver returns `"Hello  world"`. -/
theorem c6_counterexample :
    fetch_transcript_sync cHello = .ok "Hello world" ∧
    pipeHandle cHello = .transcript "Hello  world" ∧
    ("Hello world" : String) ≠ "Hello  world" := by
  decide

/-- C6 (amended): the two variants only agree on the primary-success path
when every segment text is a non-empty, strip-stable string; there both
return the space-joined texts.  (They differ in general: flattening trims
in HTTP mode only, and the fallback chains differ.) -/
theorem c6_partial_equiv :
    ∀ (c : Collab) (texts : List String),
    c.fetchResult = .ok (texts.map PyVal.str) →
    (∀ t ∈ texts, t ≠ "" ∧ pyStrip t = t) →
    fetch_transcript_sync c = .ok (pyJoin texts) ∧
    pipeHandle c = .transcript (pyJoin texts) := by
  intro c texts hf hst
  have h1 : formatFetched (texts.map PyVal.str) = .ok (pyJoin texts) := by
    rw [formatFetched_str, map_pyStrip_stable texts (fun t ht => (hst t ht).2),
      filter_ne_empty_stable texts (fun t ht => (hst t ht).1),
      pyStrip_pyJoin_stable texts hst]
  have h2 : pipeFlatten (texts.map PyVal.str) = .ok (pyJoin texts) :=
    pipeFlatten_str texts
  constructor
  · simp [fetch_transcript_sync, primaryAttempt, hf, h1]
  · simp [pipeHandle, pipePrimary, hf, h2]

/-- C6 witness: on strip-stable segments both variants return the same
string. -/
theorem c6_partial_equiv_witness :
    fetch_transcript_sync cHi = .ok "Hi there" ∧
    pipeHandle cHi = .transcript "Hi there" := by
  have h := c6_partial_equiv cHi ["Hi", "there"] rfl (by decide)
  exact ⟨h.1.trans (by decide), h.2.trans (by decide)⟩

/-- C7: a fetched transcript whose segments are all blank (empty or
whitespace-only) resolves to the empty string as a success, not an
error. -/
theorem c7_blank_transcript :
    ∀ (c : Collab) (texts : List String),
    c.fetchResult = .ok (texts.map PyVal.str) →
    (∀ t ∈ texts, pyStrip t = "") →
    fetch_transcript_sync c = .ok "" := by
  intro c texts hf hb
  have h1 : formatFetched (texts.map PyVal.str) = .ok "" := by
    rw [formatFetched_str]
    have hfil : (texts.map pyStrip).filter (fun p => p ≠ "") = [] := by
      rw [List.filter_eq_nil_iff]
      intro a ha
      obtain ⟨t, ht, hrfl⟩ := List.mem_map.mp ha
      subst hrfl
      simp [hb t ht]
    rw [hfil]
    rfl
  simp [fetch_transcript_sync, primaryAttempt, hf, h1]

/-- C7 witness: a transcript with one empty and one whitespace-only
segment resolves to the empty string. -/
theorem c7_blank_transcript_witness : fetch_transcript_sync cBlank = .ok "" :=
  c7_blank_transcript cBlank ["", "  "] rfl (by decide)

/-- C8: `GET /health` returns 200 with status ok regardless of
collaborator state, and its response never depends on the collaborator. -/
theorem c8_health :
    (∀ c : Collab, health_check c = ⟨200, [("status", "ok")]⟩) ∧
    (∀ c1 c2 : Collab, health_check c1 = health_check c2) :=
  ⟨fun _ => rfl, fun _ _ => rfl⟩

/-- C9 counterexample: a segment whose text field is a truthy non-string
makes the flattening raise (an `AttributeError` from `.strip()`) instead
of being silently omitted. -/
theorem c9_counterexample :
    formatFetched [.int 1] = .err (.attributeError attrStripMsg) := by
  decide

/-- C9 (amended): segments whose text field is missing, an empty string,
or a falsy non-string are silently omitted from the joined output, and
flattening is total over segments whose text field is a string, missing,
or falsy — but a truthy non-string text field raises. -/
theorem c9_flatten_amended :
    (∀ segs : List PyVal, formatFetched (.none :: segs) = formatFetched segs) ∧
    (∀ segs : List PyVal, formatFetched (.str "" :: segs) = formatFetched segs) ∧
    (∀ segs : List PyVal, formatFetched (.int 0 :: segs) = formatFetched segs) ∧
    (∀ segs : List PyVal, (∀ v ∈ segs, textOk v = true) →
        isOkRes (formatFetched segs) = true) := by
  refine ⟨?_, ?_, ?_, ?_⟩
  · intro segs
    simp [formatFetched, collectParts]
  · intro segs
    simp [formatFetched, collectParts]
  · intro segs
    simp [formatFetched, collectParts]
  · intro segs h
    obtain ⟨ps, hps⟩ := collectParts_ok segs h
    simp [formatFetched, hps, isOkRes]

/-- C9 witness: a transcript mixing a missing, an empty, a falsy
non-string and an ordinary text flattens without error. -/
theorem c9_flatten_amended_witness :
    isOkRes (formatFetched [PyVal.none, PyVal.str "", PyVal.int 0, PyVal.str " x "]) = true :=
  c9_flatten_amended.2.2.2 _ (by decide)

/-- C10 counterexample: a translation-fallback fetch whose segments hold a
truthy non-string text makes the loop end with a raw `AttributeError` —
neither a non-empty flattened string nor the original no-transcript-found
error. -/
theorem c10_counterexample :
    fetch_transcript_sync cAttr = .err (.attributeError attrStripMsg) ∧
    PyErr.attributeError attrStripMsg ≠ .noTranscriptFound "nf" := by
  decide

/-- C10 (amended): every exception of a translate-and-fetch attempt —
classified ones included — only skips that track; and when every
successfully translated fetch carries only well-formed text fields, the
loop's outcome is either a non-empty flattened string or the original
error.  (A formatting exception, raised outside the protected region,
can still escape the loop.) -/
theorem c10_translation_skip_amended :
    (∀ (base : PyErr) (t : TranscriptTrack) (rest : List TranscriptTrack) (m : String),
        t.is_translatable = true →
        t.translateFetchResult = .err (.transcriptsDisabled m) →
        translationLoop base (t :: rest) = translationLoop base rest) ∧
    (∀ (base : PyErr) (t : TranscriptTrack) (rest : List TranscriptTrack) (m : String),
        t.is_translatable = true →
        t.translateFetchResult = .err (.videoUnavailable m) →
        translationLoop base (t :: rest) = translationLoop base rest) ∧
    (∀ (base : PyErr) (tracks : List TranscriptTrack),
        (∀ t ∈ tracks, ∀ segs, t.translateFetchResult = .ok segs →
            ∀ v ∈ segs, textOk v = true) →
        (∃ s, translationLoop base tracks = .ok s ∧ s ≠ "") ∨
          translationLoop base tracks = .err base) := by
  refine ⟨?_, ?_, ?_⟩
  · intro base t rest m h1 h2
    simp [translationLoop, h1, h2]
  · intro base t rest m h1 h2
    simp [translationLoop, h1, h2]
  · intro base tracks h
    induction tracks with
    | nil => exact Or.inr rfl
    | cons t rest ih =>
      have hrest := ih (fun x hx => h x (List.mem_cons_of_mem _ hx))
      by_cases ht : t.is_translatable = true
      · cases htr : t.translateFetchResult with
        | err e =>
          rw [show translationLoop base (t :: rest) = translationLoop base rest from
            by simp [translationLoop, ht, htr]]
          exact hrest
        | ok segs =>
          have htok := h t (by simp) segs htr
          cases hfs : formatFetched segs with
          | err e =>
            obtain ⟨ps, hps⟩ := collectParts_ok segs htok
            simp [formatFetched, hps] at hfs
          | ok s =>
            by_cases hse : s = ""
            · rw [show translationLoop base (t :: rest) = translationLoop base rest from
                by simp [translationLoop, ht, htr, hfs, hse]]
              exact hrest
            · exact Or.inl ⟨s,
                by simp [translationLoop, ht, htr, hfs, hse], hse⟩
      · rw [show translationLoop base (t :: rest) = translationLoop base rest from
          by simp [translationLoop, ht]]
        exact hrest

/-- C10 witness: a track whose translation raises a classified error is
skipped, and the exhausted loop fails with the original error. -/
theorem c10_translation_skip_amended_witness :
    translationLoop (.noTranscriptFound "nf") [tErr] = .err (.noTranscriptFound "nf") := by
  have h := c10_translation_skip_amended.2.1 (.noTranscriptFound "nf") tErr [] "vu" rfl rfl
  exact h.trans (by decide)
